import Mathlib

/-!
Verification of the artlux LED pixel-mapping and ArtNet streaming pipeline.

The TypeScript sources are embedded shallowly:
* color and DMX channel values are natural numbers;
* stage geometry is modelled over the rationals;
* the trigonometric factors `Math.cos(rads)` / `Math.sin(rads)` of a fixture
  rotation are passed as explicit rational parameters `cosr`, `sinr`
  (for an unrotated fixture, `rads = 0`, they are exactly `1` and `0`);
* the mutable `currentFrameData` record of `sendDmxData`
  (src/services/mockSocketService.ts) becomes a function from universe
  numbers to optional channel arrays;
* the module-level mutable transport state (`lastSendTime`, `sequence`) is
  threaded explicitly, and ambient browser state (socket readiness,
  `socket.bufferedAmount`, `performance.now()`) is passed as a context
  record.
-/

/-- RGBW color value as stored in `Fixture.colorData` (src/types, `RGBW`). -/
structure RGBW where
  r : ℕ
  g : ℕ
  b : ℕ
  w : ℕ
  deriving DecidableEq, Repr

/-- The fixture data model (src/types, `Fixture`): placement geometry in
normalized stage units, rotation in degrees, DMX routing fields, and the
per-frame derived `colorData`. -/
structure Fixture where
  id : String
  name : String
  x : ℚ
  y : ℚ
  width : ℚ
  height : ℚ
  rotation : ℚ
  univ : ℕ
  startAddress : ℕ
  ledCount : ℕ
  reverse : Bool
  colorData : List RGBW
  deriving DecidableEq

/-! ## Universe multiplexer (src/services/mockSocketService.ts, `sendDmxData`) -/

/-- The `currentFrameData : Record<number, number[]>` object of `sendDmxData`:
a universe number maps to `none` while no channel of that universe has been
touched, and to a channel array (modelled as a total function, only indices
`0..511` are ever written or read) once `new Array(512).fill(0)` has been
allocated for it. -/
def FrameData : Type := ℕ → Option (ℕ → ℕ)

/-- The frame buffer before any fixture is processed: no universe allocated. -/
def emptyFrame : FrameData := fun _ => none

/-- Channel array of universe `u`, defaulting to the all-zero array
`new Array(512).fill(0)` that the code allocates on first touch. -/
def getArr (fd : FrameData) (u : ℕ) : ℕ → ℕ :=
  (fd u).getD (fun _ => 0)

/-- `if (!currentFrameData[u]) currentFrameData[u] = new Array(512).fill(0);
currentFrameData[u][ch] = v` — allocate-if-missing, then write one channel. -/
def writeChannel (fd : FrameData) (u ch v : ℕ) : FrameData :=
  let arr := getArr fd u
  fun uq => if uq = u then some (fun chq => if chq = ch then v else arr chq) else fd uq

/-- One step of the unrolled carry in `sendDmxData`:
`if (ch === 511) { u++; ch = 0; } else { ch++; }`. -/
def carry (u ch : ℕ) : ℕ × ℕ :=
  if ch = 511 then (u + 1, 0) else (u, ch + 1)

/-- The body of the per-LED loop of `sendDmxData`: starting from
`baseAddr = globalStart + i*4`, write R at `(baseAddr/512, baseAddr%512)`
("fast floor" `(absAddr / 512) | 0` and `absAddr % 512`), then advance with
the unrolled carry for G, B and W. -/
def writeLed (fd : FrameData) (baseAddr : ℕ) (c : RGBW) : FrameData :=
  let u0 := baseAddr / 512
  let ch0 := baseAddr % 512
  let fd1 := writeChannel fd u0 ch0 c.r
  let p1 := carry u0 ch0
  let fd2 := writeChannel fd1 p1.1 p1.2 c.g
  let p2 := carry p1.1 p1.2
  let fd3 := writeChannel fd2 p2.1 p2.2 c.b
  let p3 := carry p2.1 p2.2
  writeChannel fd3 p3.1 p3.2 c.w

/-- Processing of one fixture in `sendDmxData`: skip the fixture when
`colors.length !== count` (the EncodingFault guard), otherwise write the four
channels of every LED starting from
`globalStart = universe * 512 + (startAddress - 1)`. -/
def writeFixture (fd : FrameData) (f : Fixture) : FrameData :=
  if f.colorData.length ≠ f.ledCount then fd
  else
    let globalStart := f.univ * 512 + (f.startAddress - 1)
    (List.range f.ledCount).foldl
      (fun fdq i => writeLed fdq (globalStart + i * 4) (f.colorData.getD i ⟨0, 0, 0, 0⟩)) fd

/-- The whole multiplexing pass of `sendDmxData` over the fixture list. -/
def buildFrameData (fixtures : List Fixture) : FrameData :=
  fixtures.foldl writeFixture emptyFrame

/-- Written from the spec formula (spec §4.3): write a value at the absolute
channel address `absolute`, i.e. at universe `absolute / 512`, channel
`absolute % 512`. -/
def writeAt (fd : FrameData) (absolute v : ℕ) : FrameData :=
  writeChannel fd (absolute / 512) (absolute % 512) v

/-- Written from the spec formula (spec §4.3): LED `i` of a fixture whose
first absolute channel is `baseAddr` occupies the four consecutive absolute
addresses `baseAddr + c`, `c ∈ {0 (R), 1 (G), 2 (B), 3 (W)}`. -/
def writeLedSpec (fd : FrameData) (baseAddr : ℕ) (c : RGBW) : FrameData :=
  writeAt (writeAt (writeAt (writeAt fd baseAddr c.r) (baseAddr + 1) c.g) (baseAddr + 2) c.b)
    (baseAddr + 3) c.w

/-- Spec-side counterpart of `writeFixture` using absolute div/mod addressing
for every channel. -/
def writeFixtureSpec (fd : FrameData) (f : Fixture) : FrameData :=
  if f.colorData.length ≠ f.ledCount then fd
  else
    let globalStart := f.univ * 512 + (f.startAddress - 1)
    (List.range f.ledCount).foldl
      (fun fdq i => writeLedSpec fdq (globalStart + i * 4) (f.colorData.getD i ⟨0, 0, 0, 0⟩)) fd

/-- Spec-side counterpart of `buildFrameData`. -/
def buildFrameDataSpec (fixtures : List Fixture) : FrameData :=
  fixtures.foldl writeFixtureSpec emptyFrame

/-- `(targetUniverse, targetChannel)` of an absolute channel address. -/
def addrOf (absolute : ℕ) : ℕ × ℕ :=
  (absolute / 512, absolute % 512)

/-- The four `(universe, channel)` pairs occupied by LED `i` of a fixture
whose first absolute channel is `globalStart`. -/
def ledAddrs (globalStart i : ℕ) : List (ℕ × ℕ) :=
  [addrOf (globalStart + i * 4), addrOf (globalStart + i * 4 + 1),
   addrOf (globalStart + i * 4 + 2), addrOf (globalStart + i * 4 + 3)]

/-- All `(universe, channel)` pairs a fixture writes (none when the
`colorData`-length guard skips it). -/
def fixtureAddrs (f : Fixture) : List (ℕ × ℕ) :=
  if f.colorData.length ≠ f.ledCount then []
  else ((List.range f.ledCount).map (ledAddrs (f.univ * 512 + (f.startAddress - 1)))).flatten

/-- All `(universe, channel)` pairs written while multiplexing a frame. -/
def writtenPairs (fixtures : List Fixture) : List (ℕ × ℕ) :=
  (fixtures.map fixtureAddrs).flatten

/-! ## ArtNet encoder (src/services/mockSocketService.ts, `buildArtNetPacket`) -/

/-- `ARTNET_HEADER`: ASCII "Art-Net" + 0x00, OpCode 0x0050 low byte first,
protocol version 14 high byte first. -/
def ARTNET_HEADER : List ℕ :=
  [65, 114, 116, 45, 78, 101, 116, 0, 0, 80, 0, 14]

/-- `buildArtNetPacket` serializes one universe into an ArtNet OpOutput
packet.  The module-level `sequence` variable is passed explicitly.
JS `x & 0xFF` is `x % 256` and `x >> 8` is `x / 256` for the values in
range here (both variants of the source, `buildArtNetPacket` and
`fillPacketBuffer`, produce this same byte list). -/
def buildArtNetPacket (seq univn : ℕ) (dmxData : List ℕ) : List ℕ :=
  ARTNET_HEADER ++
    [seq, 0, univn % 256, univn / 256 % 256, dmxData.length / 256 % 256, dmxData.length % 256] ++
    dmxData

/-! ## Transport (src/services/mockSocketService.ts) -/

/-- The settings fields `sendDmxData` / `sendArtNetFrame` consume. -/
structure AppSettings where
  useWsBridge : Bool
  artNetIp : String
  artNetPort : ℕ
  deriving DecidableEq

/-- Ambient browser state read by a send call: whether
`socket && socket.readyState === WebSocket.OPEN`, `socket.bufferedAmount`,
and `performance.now()`. -/
structure TransportCtx where
  socketOpen : Bool
  bufferedAmount : ℕ
  now : ℤ
  deriving DecidableEq

/-- The module-level mutable transport state `lastSendTime` / `sequence`. -/
structure TransportState where
  lastSendTime : ℤ
  sequence : ℕ
  deriving DecidableEq

/-- The JSON envelope `{ type: 'broadcast-artnet', host, port, data }`
handed to the WebSocket bridge (the `type` tag is constant). -/
structure BridgeMsg where
  host : String
  port : ℕ
  data : List ℕ
  deriving DecidableEq

/-- Insert into an ascending list (helper for `frameUniverses`). -/
def insertAsc (u : ℕ) : List ℕ → List ℕ
  | [] => [u]
  | v :: rest => if u ≤ v then u :: v :: rest else v :: insertAsc u rest

/-- Sort ascending (helper for `frameUniverses`). -/
def sortAsc (l : List ℕ) : List ℕ :=
  l.foldr insertAsc []

/-- The universe keys of `currentFrameData`:
`for (const uKey in currentFrameData)` iterates the integer-like keys of a
JS object in ascending numeric order, and the allocated keys are exactly
the universes touched by some written channel. -/
def frameUniverses (fixtures : List Fixture) : List ℕ :=
  sortAsc ((writtenPairs fixtures).map Prod.fst).dedup

/-- The full 512-channel array of an allocated universe, as sent on the
wire (`data = currentFrameData[uIndex]`). -/
def channelList (fd : FrameData) (u : ℕ) : List ℕ :=
  (List.range 512).map (getArr fd u)

/-- `sendDmxData` (first source variant): guard on bridge flag and socket
state, enforce the 22 ms minimum inter-send interval, multiplex the
fixtures into universes, bump the sequence counter, and send one packet
per allocated universe. -/
def sendDmxData (st : TransportState) (ctx : TransportCtx) (settings : AppSettings)
    (fixtures : List Fixture) : TransportState × List BridgeMsg :=
  if settings.useWsBridge = false ∨ ctx.socketOpen = false then (st, [])
  else if ctx.now - st.lastSendTime < 22 then (st, [])
  else
    let fd := buildFrameData fixtures
    let seq := (st.sequence + 1) % 256
    (⟨ctx.now, seq⟩,
      (frameUniverses fixtures).map fun u =>
        ⟨settings.artNetIp, settings.artNetPort, buildArtNetPacket seq u (channelList fd u)⟩)

/-- `sendArtNetFrame` (second source variant): same guards plus the
backpressure check `socket.bufferedAmount > 64 * 1024`, then one packet per
entry of the given universe map. -/
def sendArtNetFrame (st : TransportState) (ctx : TransportCtx) (settings : AppSettings)
    (universeData : List (ℕ × List ℕ)) : TransportState × List BridgeMsg :=
  if settings.useWsBridge = false ∨ ctx.socketOpen = false then (st, [])
  else if 64 * 1024 < ctx.bufferedAmount then (st, [])
  else if ctx.now - st.lastSendTime < 22 then (st, [])
  else
    let seq := (st.sequence + 1) % 256
    (⟨ctx.now, seq⟩,
      universeData.map fun p =>
        ⟨settings.artNetIp, settings.artNetPort, buildArtNetPacket seq p.1 p.2⟩)

/-! ## RGBW conversion (src/services/colorUtils.ts and the fragment shader
of src/services/GPUMapper.ts) -/

/-- `rgbToRgbw` from colorUtils.ts: subtract-min white extraction with
`factor = 1.0` and `Math.floor` on each returned channel. -/
def rgbToRgbw (r g b : ℚ) : ℤ × ℤ × ℤ × ℤ :=
  let minVal := min r (min g b)
  let factor : ℚ := 1
  (⌊r - minVal * factor⌋, ⌊g - minVal * factor⌋, ⌊b - minVal * factor⌋, ⌊minVal * factor⌋)

/-- The fragment shader `fsSource` of GPUMapper: channels are normalized to
[0,1]; `minVal = min(min(r,g),b)`, `factor = 1.0`, every output channel
scaled by `u_brightness`. -/
def shaderRGBW (r g b brightness : ℚ) : ℚ × ℚ × ℚ × ℚ :=
  let minVal := min (min r g) b
  let factor : ℚ := 1
  ((r - minVal * factor) * brightness, (g - minVal * factor) * brightness,
   (b - minVal * factor) * brightness, minVal * factor * brightness)

/-- The shader applied to 8-bit channels: inputs are normalized by 255 and
the readback (`gl.readPixels` with `UNSIGNED_BYTE`) scales the [0,1] result
back by 255 (exact on the byte grid; no rounding needed at the values the
claims evaluate). -/
def shaderBytes (r g b : ℕ) (brightness : ℚ) : ℚ × ℚ × ℚ × ℚ :=
  let s := shaderRGBW ((r : ℚ) / 255) ((g : ℚ) / 255) ((b : ℚ) / 255) brightness
  (255 * s.1, 255 * s.2.1, 255 * s.2.2.1, 255 * s.2.2.2)

/-! ## Mapping generator (src/services/GPUMapper.ts, `updateMapping`,
first source variant).  The rotation factors `Math.cos(rads)` /
`Math.sin(rads)` are passed as explicit parameters `cosr`, `sinr`; for the
unrotated case `rads = 0` they are exactly `1` and `0`. -/

/-- Local LED center offset before rotation: dominant axis is horizontal
when `f.width >= f.height` (`isHoriz`); `step = extent / ledCount`;
`rel = ((i * step) + (step/2)) - (extent/2)`; the off-axis offset stays 0. -/
def ledLocalOffset (f : Fixture) (i : ℕ) : ℚ × ℚ :=
  if f.height ≤ f.width then
    let step := f.width / (f.ledCount : ℚ)
    ((i : ℚ) * step + step / 2 - f.width / 2, 0)
  else
    let step := f.height / (f.ledCount : ℚ)
    (0, (i : ℚ) * step + step / 2 - f.height / 2)

/-- World coordinates of LED `i` after rotation about the fixture center
and translation by `(x + width/2, y + height/2)` — the values of the
source's `u` and `v` just before the `v = 1.0 - v` flip. -/
def ledWorld (cosr sinr : ℚ) (f : Fixture) (i : ℕ) : ℚ × ℚ :=
  let cx := f.x + f.width / 2
  let cy := f.y + f.height / 2
  let rel := ledLocalOffset f i
  let rx := rel.1 * cosr - rel.2 * sinr
  let ry := rel.1 * sinr + rel.2 * cosr
  (cx + rx, cy + ry)

/-- The sample coordinate stored into the map texture, including the
vertical flip `v = 1.0 - v` of the source. -/
def ledSample (cosr sinr : ℚ) (f : Fixture) (i : ℕ) : ℚ × ℚ :=
  let cx := f.x + f.width / 2
  let cy := f.y + f.height / 2
  let rel := ledLocalOffset f i
  let rx := rel.1 * cosr - rel.2 * sinr
  let ry := rel.1 * sinr + rel.2 * cosr
  let u := cx + rx
  let v := cy + ry
  (u, 1 - v)

/-! ## Stage tick (src/components/Stage.tsx) -/

/-- The per-fixture color extraction of `Stage.tick`: LED `i` of a fixture
whose first LED is at running offset `startOffset` reads bytes
`idx = (startOffset + i) * 4 .. idx + 3` of the readback buffer (zero
RGBW when `idx` is out of range), and the slice is reversed in place when
`fixture.reverse` is set. -/
def extractColors (rawBytes : List ℕ) (startOffset ledCount : ℕ) (rev : Bool) : List RGBW :=
  let colors := (List.range ledCount).map fun i =>
    let idx := (startOffset + i) * 4
    if idx < rawBytes.length then
      ⟨rawBytes.getD idx 0, rawBytes.getD (idx + 1) 0, rawBytes.getD (idx + 2) 0,
        rawBytes.getD (idx + 3) 0⟩
    else ⟨0, 0, 0, 0⟩
  if rev then colors.reverse else colors

/-- The record `{id, x, y, w, h, r, c}` serialized per fixture by
`fixtureLayoutSignature` in Stage.tsx. -/
structure LayoutSig where
  id : String
  x : ℚ
  y : ℚ
  w : ℚ
  h : ℚ
  r : ℚ
  c : ℕ
  deriving DecidableEq

/-- `fixtureLayoutSignature` of Stage.tsx:
`JSON.stringify(fixtures.map(f => ({id, x, y, w, h, r, c})))`, modelled as
the list of the serialized records (`JSON.stringify` is injective on it). -/
def fixtureLayoutSignature (fixtures : List Fixture) : List LayoutSig :=
  fixtures.map fun f => ⟨f.id, f.x, f.y, f.width, f.height, f.rotation, f.ledCount⟩

/-- The sample map is rebuilt between two renders exactly when the memoized
layout signature changed (the rebuild effect depends on
`[fixtureLayoutSignature]`). -/
def mappingRebuilt (prev next : List Fixture) : Prop :=
  fixtureLayoutSignature prev ≠ fixtureLayoutSignature next

/-- Written from the claim's words: structural signature over
`{x, y, width, height, rotation, ledCount}` only (no `id`). -/
def specLayoutSignature (fixtures : List Fixture) : List (ℚ × ℚ × ℚ × ℚ × ℚ × ℕ) :=
  fixtures.map fun f => (f.x, f.y, f.width, f.height, f.rotation, f.ledCount)

/-! ## Brightness (src/services/GPUMapper.ts, `setBrightness`) -/

/-- `setBrightness`: `this.brightness = Math.max(0, Math.min(1, value))`. -/
def setBrightness (value : ℚ) : ℚ :=
  max 0 (min 1 value)

/-- The stored brightness after a sequence of `setBrightness` calls,
starting from the constructor's initial `1.0`. -/
def brightnessAfter (calls : List ℚ) : ℚ :=
  calls.foldl (fun _ value => setBrightness value) 1

/-! ## Concrete inputs used by witnesses and counterexamples -/

/-- The universe-splitting fixture of the spec's testable property:
`universe=0, startAddress=511, ledCount=1`. -/
def fixtureSplit : Fixture :=
  { id := "f1", name := "Split", x := 0, y := 0, width := 1, height := 1/10, rotation := 0,
    univ := 0, startAddress := 511, ledCount := 1, reverse := false,
    colorData := [⟨10, 20, 30, 40⟩] }

/-- A horizontal 4-LED strip across the full stage width. -/
def fixtureRow : Fixture :=
  { id := "row", name := "Row", x := 0, y := 0, width := 2, height := 1, rotation := 0,
    univ := 0, startAddress := 1, ledCount := 4, reverse := false,
    colorData := [] }

/-- C9 counterexample fixture. -/
def fixtureIdA : Fixture :=
  { id := "a", name := "n", x := 0, y := 0, width := 1, height := 1, rotation := 0,
    univ := 0, startAddress := 1, ledCount := 1, reverse := false, colorData := [] }

/-- Same as `fixtureIdA` except for the `id` (outside the claim's
signature, inside the code's). -/
def fixtureIdB : Fixture :=
  { fixtureIdA with id := "b" }

/-- Every channel of an allocated universe outside the pair list `S` is
still zero. -/
def ZeroOutside (S : List (ℕ × ℕ)) (fd : FrameData) : Prop :=
  ∀ u ch arr, fd u = some arr → (u, ch) ∉ S → arr ch = 0

/-! ## Lemmas and claim theorems -/

lemma carry_addrOf (a : ℕ) : carry (a / 512) (a % 512) = addrOf (a + 1) := by
  unfold carry addrOf
  rcases Nat.lt_or_ge (a % 512) 511 with h | h
  · rw [if_neg (by omega)]
    simp only [Prod.mk.injEq]
    omega
  · have h511 : a % 512 = 511 := by
      have := Nat.mod_lt a (y := 512) (by norm_num)
      omega
    rw [if_pos h511]
    simp only [Prod.mk.injEq]
    omega

lemma writeLed_eq_spec (fd : FrameData) (a : ℕ) (c : RGBW) :
    writeLed fd a c = writeLedSpec fd a c := by
  simp only [writeLed, writeLedSpec, writeAt, carry_addrOf, addrOf]

lemma writeFixture_eq_spec (fd : FrameData) (f : Fixture) :
    writeFixture fd f = writeFixtureSpec fd f := by
  unfold writeFixture writeFixtureSpec
  split
  · rfl
  · simp only [writeLed_eq_spec]

lemma buildFrameData_eq_spec (fixtures : List Fixture) :
    buildFrameData fixtures = buildFrameDataSpec fixtures := by
  have h : writeFixture = writeFixtureSpec :=
    funext fun fd => funext fun f => writeFixture_eq_spec fd f
  rw [buildFrameData, buildFrameDataSpec, h]

lemma zeroOutside_empty (S : List (ℕ × ℕ)) : ZeroOutside S emptyFrame := by
  intro u ch arr h
  simp [emptyFrame] at h

lemma zeroOutside_write {S : List (ℕ × ℕ)} {fd : FrameData} {u ch v : ℕ}
    (h : ZeroOutside S fd) (hmem : (u, ch) ∈ S) :
    ZeroOutside S (writeChannel fd u ch v) := by
  intro uq chq arr harr hnot
  simp only [writeChannel] at harr
  by_cases hu : uq = u
  · rw [if_pos hu] at harr
    subst hu
    obtain rfl := (Option.some_inj.mp harr).symm
    have hne : ¬chq = ch := fun e => hnot (e ▸ hmem)
    show (if chq = ch then v else getArr fd uq chq) = 0
    rw [if_neg hne]
    unfold getArr
    cases hfd : fd uq with
    | none => rfl
    | some a =>
        show a chq = 0
        exact h uq chq a hfd hnot
  · rw [if_neg hu] at harr
    exact h uq chq arr harr hnot

lemma zeroOutside_foldl {α : Type} {S : List (ℕ × ℕ)} (g : FrameData → α → FrameData)
    (l : List α) (hg : ∀ fd x, x ∈ l → ZeroOutside S fd → ZeroOutside S (g fd x)) :
    ∀ fd, ZeroOutside S fd → ZeroOutside S (l.foldl g fd) := by
  induction l with
  | nil => intro fd h; exact h
  | cons x xs ih =>
      intro fd h
      exact ih (fun fdq y hy => hg fdq y (List.mem_cons_of_mem _ hy)) _
        (hg fd x (List.mem_cons_self _ _) h)

lemma zeroOutside_writeLedSpec {S : List (ℕ × ℕ)} {fd : FrameData} {a : ℕ} {c : RGBW}
    (h : ZeroOutside S fd) (h0 : addrOf a ∈ S) (h1 : addrOf (a + 1) ∈ S)
    (h2 : addrOf (a + 2) ∈ S) (h3 : addrOf (a + 3) ∈ S) :
    ZeroOutside S (writeLedSpec fd a c) := by
  unfold writeLedSpec writeAt
  exact zeroOutside_write (zeroOutside_write (zeroOutside_write (zeroOutside_write h h0) h1) h2) h3

lemma zeroOutside_writeFixtureSpec {S : List (ℕ × ℕ)} {fd : FrameData} {f : Fixture}
    (h : ZeroOutside S fd) (hsub : ∀ p ∈ fixtureAddrs f, p ∈ S) :
    ZeroOutside S (writeFixtureSpec fd f) := by
  unfold writeFixtureSpec
  split
  · exact h
  · next hguard =>
      apply zeroOutside_foldl _ _ ?_ fd h
      intro fdq i hi hfdq
      have hmem : ∀ p ∈ ledAddrs (f.univ * 512 + (f.startAddress - 1)) i, p ∈ fixtureAddrs f := by
        intro p hp
        unfold fixtureAddrs
        rw [if_neg hguard]
        exact List.mem_flatten.mpr ⟨_, List.mem_map_of_mem _ hi, hp⟩
      apply zeroOutside_writeLedSpec hfdq
      · exact hsub _ (hmem _ (by simp [ledAddrs]))
      · exact hsub _ (hmem _ (by simp [ledAddrs]))
      · exact hsub _ (hmem _ (by simp [ledAddrs]))
      · exact hsub _ (hmem _ (by simp [ledAddrs]))

lemma zeroOutside_buildSpec (fixtures : List Fixture) :
    ZeroOutside (writtenPairs fixtures) (buildFrameDataSpec fixtures) := by
  unfold buildFrameDataSpec
  apply zeroOutside_foldl _ _ ?_ emptyFrame (zeroOutside_empty _)
  intro fd f hf hfd
  apply zeroOutside_writeFixtureSpec hfd
  intro p hp
  unfold writtenPairs
  exact List.mem_flatten.mpr ⟨_, List.mem_map_of_mem _ hf, hp⟩

/-- Claim C1: the universe multiplexer writes the value of LED `i`, channel `c`
(R=0, G=1, B=2, W=3) at absolute address
`universe*512 + (startAddress - 1) + i*4 + c`, into the buffer of universe
`absolute / 512` at channel `absolute % 512` — i.e. the unrolled carry loop
of `sendDmxData` equals the div/mod formula (`buildFrameData =
buildFrameDataSpec`) — every untouched channel of a built universe is 0,
and the fixture `universe=0, startAddress=511, ledCount=1` writes its four
channel values at universe 0 channels 510–511 and universe 1 channels 0–1,
allocating exactly those two universes. -/
theorem artlux_C1 :
    (∀ fixtures : List Fixture, buildFrameData fixtures = buildFrameDataSpec fixtures) ∧
    (∀ (fixtures : List Fixture) (u ch : ℕ) (arr : ℕ → ℕ),
        buildFrameData fixtures u = some arr → (u, ch) ∉ writtenPairs fixtures →
        arr ch = 0) ∧
    (writtenPairs [fixtureSplit] = [(0, 510), (0, 511), (1, 0), (1, 1)] ∧
     getArr (buildFrameData [fixtureSplit]) 0 510 = 10 ∧
     getArr (buildFrameData [fixtureSplit]) 0 511 = 20 ∧
     getArr (buildFrameData [fixtureSplit]) 1 0 = 30 ∧
     getArr (buildFrameData [fixtureSplit]) 1 1 = 40 ∧
     (buildFrameData [fixtureSplit] 0).isSome = true ∧
     (buildFrameData [fixtureSplit] 1).isSome = true ∧
     buildFrameData [fixtureSplit] 2 = none) := by
  refine ⟨buildFrameData_eq_spec, ?_, ?_⟩
  · intro fixtures u ch arr harr hnot
    rw [buildFrameData_eq_spec] at harr
    exact zeroOutside_buildSpec fixtures u ch arr harr hnot
  · refine ⟨by decide, by decide, by decide, by decide, by decide, by decide, by decide, rfl⟩

/-- Witness for C1: channel 0 of universe 0 is untouched by `fixtureSplit`
and reads back 0. -/
theorem artlux_C1_witness : getArr (buildFrameData [fixtureSplit]) 0 0 = 0 := by
  rcases hfd : buildFrameData [fixtureSplit] 0 with _ | arr
  · unfold getArr
    rw [hfd]
    rfl
  · unfold getArr
    rw [hfd]
    show arr 0 = 0
    exact artlux_C1.2.1 [fixtureSplit] 0 0 arr hfd (by decide)

/-- Claim C2: for every universe number `u < 2^15` and DMX data of length at most
512, the encoded ArtNet packet is exactly the 18-byte header-and-fields
prefix — ID "Art-Net\0", OpCode `[0x00, 0x50]` low byte first, protocol
version `[0x00, 0x0E]` high byte first, sequence, physical 0, universe low
byte first, length high byte first — followed by the data; its length is
`18 + L`, its tail is the data, and for `u=3, d=[10,20]` it is the spec's
concrete byte list. -/
theorem artlux_C2 :
    ∀ (seq univn : ℕ) (dmxData : List ℕ),
      univn < 2 ^ 15 → dmxData.length ≤ 512 →
      buildArtNetPacket seq univn dmxData =
        [65, 114, 116, 45, 78, 101, 116, 0, 0, 80, 0, 14, seq, 0,
         univn % 256, univn / 256, dmxData.length / 256, dmxData.length % 256] ++ dmxData ∧
      (buildArtNetPacket seq univn dmxData).length = 18 + dmxData.length ∧
      (buildArtNetPacket seq univn dmxData).drop 18 = dmxData ∧
      buildArtNetPacket seq 3 [10, 20] =
        [65, 114, 116, 45, 78, 101, 116, 0, 0, 80, 0, 14, seq, 0, 3, 0, 0, 2, 10, 20] := by
  intro seq univn dmxData hu hl
  have h15 : univn / 256 % 256 = univn / 256 := by omega
  have h16 : dmxData.length / 256 % 256 = dmxData.length / 256 := by omega
  have hmain : buildArtNetPacket seq univn dmxData =
      [65, 114, 116, 45, 78, 101, 116, 0, 0, 80, 0, 14, seq, 0,
       univn % 256, univn / 256, dmxData.length / 256, dmxData.length % 256] ++ dmxData := by
    simp [buildArtNetPacket, ARTNET_HEADER, h15, h16]
  refine ⟨hmain, ?_, ?_, rfl⟩
  · rw [hmain]
    simp
    omega
  · rw [hmain]
    exact List.drop_left' rfl

/-- Witness for C2 at `sequence=7, universe=3, data=[10,20]`. -/
theorem artlux_C2_witness :
    buildArtNetPacket 7 3 [10, 20] =
      [65, 114, 116, 45, 78, 101, 116, 0, 0, 80, 0, 14, 7, 0, 3, 0, 0, 2, 10, 20] :=
  (artlux_C2 7 3 [10, 20] (by decide) (by decide)).2.2.2

/-- Claim C3: whenever the outbound socket buffer holds more than 64 KiB of
unsent data, `sendArtNetFrame` sends none of the frame's packets and leaves
the transport state untouched; once the buffered amount is at or below the
threshold (and the bridge is enabled, the socket open, and the rate-limit
window has elapsed), a subsequent request sends the whole frame, one packet
per universe. -/
theorem artlux_C3 :
    ∀ (st : TransportState) (ctx : TransportCtx) (settings : AppSettings)
      (universeData : List (ℕ × List ℕ)),
      (64 * 1024 < ctx.bufferedAmount →
        sendArtNetFrame st ctx settings universeData = (st, [])) ∧
      (ctx.bufferedAmount ≤ 64 * 1024 → settings.useWsBridge = true →
        ctx.socketOpen = true → 22 ≤ ctx.now - st.lastSendTime →
        sendArtNetFrame st ctx settings universeData =
          (⟨ctx.now, (st.sequence + 1) % 256⟩,
            universeData.map fun p =>
              ⟨settings.artNetIp, settings.artNetPort,
                buildArtNetPacket ((st.sequence + 1) % 256) p.1 p.2⟩)) := by
  intro st ctx settings universeData
  constructor
  · intro h
    unfold sendArtNetFrame
    by_cases h1 : settings.useWsBridge = false ∨ ctx.socketOpen = false
    · rw [if_pos h1]
    · rw [if_neg h1, if_pos h]
  · intro hbuf hbridge hopen hrate
    unfold sendArtNetFrame
    rw [if_neg (by simp [hbridge, hopen]), if_neg (by omega), if_neg (by omega)]

/-- Witness for C3: with 70000 buffered bytes the frame is dropped; with 0
buffered bytes (same state otherwise) the frame is sent. -/
theorem artlux_C3_witness :
    sendArtNetFrame ⟨0, 5⟩ ⟨true, 70000, 100⟩ ⟨true, "10.0.0.1", 6454⟩ [(3, [10, 20])] =
      (⟨0, 5⟩, []) ∧
    sendArtNetFrame ⟨0, 5⟩ ⟨true, 0, 100⟩ ⟨true, "10.0.0.1", 6454⟩ [(3, [10, 20])] =
      (⟨100, 6⟩, [⟨"10.0.0.1", 6454, buildArtNetPacket 6 3 [10, 20]⟩]) :=
  ⟨(artlux_C3 ⟨0, 5⟩ ⟨true, 70000, 100⟩ ⟨true, "10.0.0.1", 6454⟩ [(3, [10, 20])]).1 (by decide),
   (artlux_C3 ⟨0, 5⟩ ⟨true, 0, 100⟩ ⟨true, "10.0.0.1", 6454⟩ [(3, [10, 20])]).2 (by decide)
     rfl rfl (by decide)⟩

/-- Byte 12 of every encoded packet is the sequence value it was built
with. -/
lemma buildArtNetPacket_getD12 (seq univn : ℕ) (dmxData : List ℕ) :
    (buildArtNetPacket seq univn dmxData).getD 12 0 = seq :=
  rfl

/-- Claim C8: every packet built during a single transmitted frame of
`sendDmxData` carries the same sequence byte `(sequence + 1) % 256 < 256`;
a transmitted frame (bridge enabled, socket open, rate-limit window
elapsed) advances the stored sequence by exactly 1 modulo 256, wrapping
255 to 0; and a call that sends nothing — bridge disabled, socket not
open, or within the 22 ms rate-limit window — leaves the transport state
(including the sequence counter) unchanged and sends no packet. -/
theorem artlux_C8 :
    ∀ (st : TransportState) (ctx : TransportCtx) (settings : AppSettings)
      (fixtures : List Fixture),
      (∀ msg ∈ (sendDmxData st ctx settings fixtures).2,
          msg.data.getD 12 0 = (st.sequence + 1) % 256 ∧ msg.data.getD 12 0 < 256) ∧
      (settings.useWsBridge = true → ctx.socketOpen = true →
        22 ≤ ctx.now - st.lastSendTime →
        (sendDmxData st ctx settings fixtures).1.sequence = (st.sequence + 1) % 256 ∧
        (st.sequence = 255 → (sendDmxData st ctx settings fixtures).1.sequence = 0)) ∧
      (settings.useWsBridge = false ∨ ctx.socketOpen = false ∨
          ctx.now - st.lastSendTime < 22 →
        sendDmxData st ctx settings fixtures = (st, [])) := by
  intro st ctx settings fixtures
  refine ⟨?_, ?_, ?_⟩
  · intro msg hmsg
    unfold sendDmxData at hmsg
    split at hmsg
    · simp at hmsg
    · split at hmsg
      · simp at hmsg
      · obtain ⟨u, hu, rfl⟩ := List.mem_map.mp hmsg
        refine ⟨buildArtNetPacket_getD12 _ _ _, ?_⟩
        rw [buildArtNetPacket_getD12]
        exact Nat.mod_lt _ (by norm_num)
  · intro hbridge hopen hrate
    unfold sendDmxData
    rw [if_neg (by simp [hbridge, hopen]), if_neg (by omega)]
    exact ⟨rfl, fun h255 => by simp [h255]⟩
  · intro hfail
    unfold sendDmxData
    by_cases h1 : settings.useWsBridge = false ∨ ctx.socketOpen = false
    · rw [if_pos h1]
    · rw [if_neg h1]
      have hrate : ctx.now - st.lastSendTime < 22 := by
        rcases hfail with h | h | h
        · exact absurd (Or.inl h) h1
        · exact absurd (Or.inr h) h1
        · exact h
      rw [if_pos hrate]

/-- Witness for C8: a transmitted frame advances the sequence from 255 to
0 and stamps byte 12 of the emitted packet with it; a rate-limited call
changes nothing. -/
theorem artlux_C8_witness :
    (sendDmxData ⟨0, 255⟩ ⟨true, 0, 100⟩ ⟨true, "ip", 6454⟩ [fixtureSplit]).1.sequence = 0 ∧
    sendDmxData ⟨90, 255⟩ ⟨true, 0, 100⟩ ⟨true, "ip", 6454⟩ [fixtureSplit] = (⟨90, 255⟩, []) :=
  ⟨((artlux_C8 ⟨0, 255⟩ ⟨true, 0, 100⟩ ⟨true, "ip", 6454⟩ [fixtureSplit]).2.1 rfl rfl
      (by decide)).2 rfl,
   (artlux_C8 ⟨90, 255⟩ ⟨true, 0, 100⟩ ⟨true, "ip", 6454⟩ [fixtureSplit]).2.2
     (Or.inr (Or.inr (by decide)))⟩

/-- Claim C4: the RGBW conversion outputs `(r - w, g - w, b - w, w)` with
`w = min(r,g,b)` — exactly, with the `Math.floor` of `rgbToRgbw` a no-op on
integer channels — and the shader pipeline scales all four channels by the
brightness; in particular `(200,150,150)` yields `(50,0,0,150)` at
brightness 1 and `(25,0,0,75)` at brightness 0.5. -/
theorem artlux_C4 :
    ∀ (r g b : ℕ) (brightness : ℚ),
      r ≤ 255 → g ≤ 255 → b ≤ 255 → 0 ≤ brightness → brightness ≤ 1 →
      rgbToRgbw (r : ℚ) (g : ℚ) (b : ℚ) =
        ((r : ℤ) - (min r (min g b) : ℕ), (g : ℤ) - (min r (min g b) : ℕ),
         (b : ℤ) - (min r (min g b) : ℕ), ((min r (min g b) : ℕ) : ℤ)) ∧
      shaderBytes r g b brightness =
        (((r : ℚ) - (min r (min g b) : ℕ)) * brightness,
         ((g : ℚ) - (min r (min g b) : ℕ)) * brightness,
         ((b : ℚ) - (min r (min g b) : ℕ)) * brightness,
         ((min r (min g b) : ℕ) : ℚ) * brightness) ∧
      rgbToRgbw 200 150 150 = (50, 0, 0, 150) ∧
      shaderBytes 200 150 150 1 = (50, 0, 0, 150) ∧
      shaderBytes 200 150 150 (1 / 2) = (25, 0, 0, 75) := by
  intro r g b brightness hr hg hb hb0 hb1
  have hwq : ((min r (min g b) : ℕ) : ℚ) = min (r : ℚ) (min (g : ℚ) (b : ℚ)) := by
    push_cast
    rfl
  have hfloor : ∀ a : ℕ,
      ⌊(a : ℚ) - ((min r (min g b) : ℕ) : ℚ)⌋ = (a : ℤ) - (min r (min g b) : ℕ) := by
    intro a
    rw [show (a : ℚ) - ((min r (min g b) : ℕ) : ℚ) =
        (((a : ℤ) - (min r (min g b) : ℕ) : ℤ) : ℚ) by push_cast; ring]
    exact Int.floor_intCast _
  refine ⟨?_, ?_, by norm_num [rgbToRgbw], by norm_num [shaderBytes, shaderRGBW],
    by norm_num [shaderBytes, shaderRGBW]⟩
  · simp only [rgbToRgbw, mul_one, ← hwq, Prod.mk.injEq]
    exact ⟨hfloor r, hfloor g, hfloor b, Int.floor_natCast _⟩
  · have h255 : (0 : ℚ) ≤ 255 := by norm_num
    have hmin : min (min ((r : ℚ) / 255) ((g : ℚ) / 255)) ((b : ℚ) / 255) =
        ((min r (min g b) : ℕ) : ℚ) / 255 := by
      rw [min_div_div_right h255, min_div_div_right h255, hwq, min_assoc]
    simp only [shaderBytes, shaderRGBW, mul_one, hmin, Prod.mk.injEq]
    refine ⟨by ring, by ring, by ring, by ring⟩

/-- Witness for C4 at `(200,150,150)`, brightness 1 and 0.5. -/
theorem artlux_C4_witness :
    rgbToRgbw 200 150 150 = (50, 0, 0, 150) ∧
    shaderBytes 200 150 150 (1 / 2) = (25, 0, 0, 75) :=
  ⟨(artlux_C4 200 150 150 1 (by decide) (by decide) (by decide) (by decide)
      (by decide)).2.2.1,
   (artlux_C4 200 150 150 1 (by decide) (by decide) (by decide) (by decide)
      (by decide)).2.2.2.2⟩

lemma ledSample_horiz (f : Fixture) (k : ℕ) (hh : f.height ≤ f.width) :
    (ledSample 1 0 f k).1 = f.x + ((k : ℚ) + 1 / 2) * (f.width / f.ledCount) := by
  simp only [ledSample, ledLocalOffset, if_pos hh]
  ring

/-- Claim C5: LED centers lie only along the dominant axis — horizontal when
`width ≥ height`, vertical otherwise — with local offset
`(i + 0.5) * (extent / ledCount) - extent / 2` on the dominant axis and 0
off-axis, before rotation about the fixture center and translation by the
center; consequently, for an unrotated horizontal fixture the sample
u-coordinates are evenly spaced (consecutive difference `width/ledCount`)
and strictly increasing, and stay strictly inside `[x, x + width]`. -/
theorem artlux_C5 :
    ∀ (f : Fixture) (i j : ℕ),
      1 ≤ f.ledCount →
      (ledLocalOffset f i =
        if f.height ≤ f.width then
          (((i : ℚ) + 1 / 2) * (f.width / f.ledCount) - f.width / 2, 0)
        else
          (0, ((i : ℚ) + 1 / 2) * (f.height / f.ledCount) - f.height / 2)) ∧
      (f.height ≤ f.width → (ledLocalOffset f i).2 = 0) ∧
      (f.width < f.height → (ledLocalOffset f i).1 = 0) ∧
      (f.height ≤ f.width →
        (ledSample 1 0 f i).1 = f.x + ((i : ℚ) + 1 / 2) * (f.width / f.ledCount)) ∧
      (f.height ≤ f.width →
        (ledSample 1 0 f (i + 1)).1 - (ledSample 1 0 f i).1 = f.width / f.ledCount) ∧
      (f.height ≤ f.width → i < j → j < f.ledCount → 0 < f.width →
        (ledSample 1 0 f i).1 < (ledSample 1 0 f j).1) ∧
      (f.height ≤ f.width → i < f.ledCount → 0 < f.width →
        f.x < (ledSample 1 0 f i).1 ∧ (ledSample 1 0 f i).1 < f.x + f.width) := by
  intro f i j hN
  have hN0 : (0 : ℚ) < (f.ledCount : ℚ) := by
    exact_mod_cast Nat.lt_of_lt_of_le Nat.zero_lt_one hN
  refine ⟨?_, ?_, ?_, ?_, ?_, ?_, ?_⟩
  · by_cases hh : f.height ≤ f.width
    · rw [if_pos hh]
      simp only [ledLocalOffset, if_pos hh, Prod.mk.injEq]
      exact ⟨by ring, trivial⟩
    · rw [if_neg hh]
      simp only [ledLocalOffset, if_neg hh, Prod.mk.injEq]
      exact ⟨trivial, by ring⟩
  · intro hh
    simp only [ledLocalOffset, if_pos hh]
  · intro hh
    simp only [ledLocalOffset, if_neg (not_le_of_lt hh)]
  · intro hh
    exact ledSample_horiz f i hh
  · intro hh
    rw [ledSample_horiz f (i + 1) hh, ledSample_horiz f i hh]
    push_cast
    ring
  · intro hh hij hjN hw
    rw [ledSample_horiz f i hh, ledSample_horiz f j hh]
    have hstep : 0 < f.width / (f.ledCount : ℚ) := div_pos hw hN0
    have hij' : (i : ℚ) + 1 / 2 < (j : ℚ) + 1 / 2 := by
      have : (i : ℚ) < (j : ℚ) := by exact_mod_cast hij
      linarith
    exact add_lt_add_left (mul_lt_mul_of_pos_right hij' hstep) _
  · intro hh hiN hw
    rw [ledSample_horiz f i hh]
    have hstep : 0 < f.width / (f.ledCount : ℚ) := div_pos hw hN0
    have hpos : 0 < ((i : ℚ) + 1 / 2) * (f.width / f.ledCount) := by
      apply mul_pos _ hstep
      positivity
    constructor
    · exact lt_add_of_pos_right _ hpos
    · apply add_lt_add_left
      have hiq : (i : ℚ) + 1 / 2 < (f.ledCount : ℚ) := by
        have : (i : ℚ) + 1 ≤ (f.ledCount : ℚ) := by exact_mod_cast hiN
        linarith
      calc ((i : ℚ) + 1 / 2) * (f.width / f.ledCount)
          < (f.ledCount : ℚ) * (f.width / f.ledCount) :=
            mul_lt_mul_of_pos_right hiq hstep
        _ = f.width := by
            rw [mul_comm, div_mul_cancel₀ _ (ne_of_gt hN0)]

/-- Witness for C5: on the concrete horizontal strip `fixtureRow`, sample
u-coordinates of LEDs 0 and 1 are in strictly increasing order. -/
theorem artlux_C5_witness :
    (ledSample 1 0 fixtureRow 0).1 < (ledSample 1 0 fixtureRow 1).1 :=
  (artlux_C5 fixtureRow 0 1 (by decide)).2.2.2.2.2.1 (by decide) (by decide) (by decide)
    (by decide)

/-- Claim C6: the stored sample coordinate is the vertically flipped world
coordinate: `ledSample = (u, 1 - v)` where `(u, v)` is the rotated and
translated world position of the LED center (the source's `v = 1.0 - v`
reconciling top-left-origin stage coordinates with bottom-left-origin
sampling space). -/
theorem artlux_C6 :
    ∀ (cosr sinr : ℚ) (f : Fixture) (i : ℕ),
      ledSample cosr sinr f i =
        ((ledWorld cosr sinr f i).1, 1 - (ledWorld cosr sinr f i).2) :=
  fun _ _ _ _ => rfl

/-- Claim C7: the color slice extracted with `reverse=true` is the exact list
reversal of the slice extracted with `reverse=false` from the same
readback bytes — same per-LED RGBW values in mirrored LED order, reversal
applied to the LED slice (length `ledCount`) before any channel
addressing. -/
theorem artlux_C7 :
    ∀ (rawBytes : List ℕ) (startOffset n : ℕ),
      extractColors rawBytes startOffset n true =
        (extractColors rawBytes startOffset n false).reverse ∧
      (extractColors rawBytes startOffset n true).length = n ∧
      (extractColors rawBytes startOffset n false).length = n ∧
      (∀ i, i < n →
        (extractColors rawBytes startOffset n true).getD i ⟨0, 0, 0, 0⟩ =
          (extractColors rawBytes startOffset n false).getD (n - 1 - i) ⟨0, 0, 0, 0⟩) := by
  intro raw off n
  have hrev : extractColors raw off n true = (extractColors raw off n false).reverse := rfl
  have hlenf : (extractColors raw off n false).length = n := by
    simp [extractColors]
  refine ⟨hrev, ?_, hlenf, ?_⟩
  · rw [hrev, List.length_reverse, hlenf]
  · intro i hi
    rw [hrev, List.getD_eq_getElem?_getD, List.getD_eq_getElem?_getD,
      List.getElem?_reverse (by rw [hlenf]; exact hi), hlenf]

/-- Witness for C7 on an 8-byte buffer and a 2-LED fixture. -/
theorem artlux_C7_witness :
    (extractColors [1, 2, 3, 4, 5, 6, 7, 8] 0 2 true).getD 0 ⟨0, 0, 0, 0⟩ =
      (extractColors [1, 2, 3, 4, 5, 6, 7, 8] 0 2 false).getD 1 ⟨0, 0, 0, 0⟩ :=
  (artlux_C7 [1, 2, 3, 4, 5, 6, 7, 8] 0 2).2.2.2 0 (by decide)

/-- Counterexample to C9 as stated: the code's layout signature includes
`f.id`, so two frames that differ only in a fixture's `id` — identical
`{x, y, width, height, rotation, ledCount}` signature in the claim's sense
— do trigger a rebuild. -/
theorem artlux_C9_counterexample :
    mappingRebuilt [fixtureIdA] [fixtureIdB] ∧
    specLayoutSignature [fixtureIdA] = specLayoutSignature [fixtureIdB] := by
  constructor
  · unfold mappingRebuilt
    decide
  · rfl

/-- Claim C9 as amended: the sample map is rebuilt if and only if the structural
signature of `{id, x, y, width, height, rotation, ledCount}` across all
fixtures changes; any change confined to the fields outside that signature
(`name`, `universe`, `startAddress`, `reverse`, `colorData`) leaves the
signature — hence the map — untouched, and the signature does not depend
on the source frame or brightness at all (they are not inputs). -/
theorem artlux_C9 :
    ∀ h : Fixture → Fixture,
      (∀ f, (h f).id = f.id ∧ (h f).x = f.x ∧ (h f).y = f.y ∧ (h f).width = f.width ∧
        (h f).height = f.height ∧ (h f).rotation = f.rotation ∧
        (h f).ledCount = f.ledCount) →
      ∀ prev next : List Fixture,
        fixtureLayoutSignature (prev.map h) = fixtureLayoutSignature prev ∧
        ¬ mappingRebuilt prev (prev.map h) ∧
        (mappingRebuilt prev next ↔
          fixtureLayoutSignature prev ≠ fixtureLayoutSignature next) := by
  intro h hh prev next
  have hsig : fixtureLayoutSignature (prev.map h) = fixtureLayoutSignature prev := by
    unfold fixtureLayoutSignature
    rw [List.map_map]
    apply List.map_congr_left
    intro a _
    obtain ⟨h1, h2, h3, h4, h5, h6, h7⟩ := hh a
    simp [Function.comp, LayoutSig.mk.injEq, h1, h2, h3, h4, h5, h6, h7]
  refine ⟨hsig, ?_, Iff.rfl⟩
  unfold mappingRebuilt
  intro hcon
  exact hcon hsig.symm

/-- Witness for C9 (amended): renaming and re-addressing `fixtureIdA` does
not change the layout signature. -/
theorem artlux_C9_witness :
    fixtureLayoutSignature ([fixtureIdA].map fun f =>
      { f with
        name := "other"
        univ := 9
        startAddress := 5
        reverse := true
        colorData := [⟨1, 2, 3, 4⟩] }) = fixtureLayoutSignature [fixtureIdA] :=
  (artlux_C9
    (fun f =>
      { f with
        name := "other"
        univ := 9
        startAddress := 5
        reverse := true
        colorData := [⟨1, 2, 3, 4⟩] })
    (fun _ => ⟨rfl, rfl, rfl, rfl, rfl, rfl, rfl⟩) [fixtureIdA] []).1

lemma foldl_setBrightness_mem :
    ∀ (calls : List ℚ) (init : ℚ), 0 ≤ init → init ≤ 1 →
      0 ≤ calls.foldl (fun _ value => setBrightness value) init ∧
      calls.foldl (fun _ value => setBrightness value) init ≤ 1 := by
  intro calls
  induction calls with
  | nil => exact fun init h0 h1 => ⟨h0, h1⟩
  | cons v vs ih =>
      intro init h0 h1
      exact ih (setBrightness v) (le_max_left _ _)
        (max_le (by norm_num) (min_le_left _ _))

/-- Claim C10: `setBrightness` stores `min(1, max(0, v))` (the code's
`Math.max(0, Math.min(1, v))` agrees with it for every real argument), so
the brightness read by every subsequent conversion pass — after any
sequence of `setBrightness` calls, starting from the constructor's 1.0 —
always lies in `[0, 1]`. -/
theorem artlux_C10 :
    (∀ value : ℚ,
      setBrightness value = min 1 (max 0 value) ∧
      0 ≤ setBrightness value ∧ setBrightness value ≤ 1) ∧
    (∀ calls : List ℚ, 0 ≤ brightnessAfter calls ∧ brightnessAfter calls ≤ 1) := by
  constructor
  · intro v
    refine ⟨?_, le_max_left _ _, max_le (by norm_num) (min_le_left _ _)⟩
    unfold setBrightness
    rw [max_min_distrib_left, max_eq_right (by norm_num : (0 : ℚ) ≤ 1)]
  · intro calls
    unfold brightnessAfter
    exact foldl_setBrightness_mem calls 1 (by norm_num) (le_refl 1)
